import Mathlib

/-!
Verification development for a property-search backend (`src/main.py`).

The core under study: a field normalizer mapping heterogeneous upstream
attribute maps to one canonical `PropertyRecord` shape, a single-family
classifier, a spatial query client, and a search/export orchestrator.

Python values appearing in the upstream JSON payloads are modelled by
`Value` (null, bool, int, float, string); Python floats are modelled as
rationals (`ℚ`), which is exact for every decimal literal the service
manipulates.  External HTTP calls are modelled as oracle functions the
orchestrator consumes (`fetch` for the geocoder, `send` for the spatial
feature service).
-/

set_option autoImplicit false

namespace DentonCAD

/-- A Python/JSON value as seen in upstream payloads: null, bool, int,
float (modelled as an exact rational) or string. -/
inductive Value where
  | vNone
  | vBool (b : Bool)
  | vInt (n : Int)
  | vFloat (q : ℚ)
  | vStr (s : String)
  deriving DecidableEq

/-- Python truthiness: `None`, `False`, `0`, `0.0` and `""` are falsy;
everything else is truthy.  This drives the `or`-chains in `normalize`. -/
def pyTruthy : Value → Bool
  | .vNone => false
  | .vBool b => b
  | .vInt n => if n = 0 then false else true
  | .vFloat q => if q = 0 then false else true
  | .vStr s => if s = "" then false else true

/-- Rendering of a Python float value as a string.  Python prints an
integral float as e.g. `2005.0`; non-integral rationals get a plain
rational rendering (no claim depends on that case). -/
def ratToPyString (q : ℚ) : String :=
  if q.den = 1 then toString q.num ++ ".0" else toString q

/-- Python `str()` applied to a `Value`. -/
def pyStr : Value → String
  | .vNone => "None"
  | .vBool true => "True"
  | .vBool false => "False"
  | .vInt n => toString n
  | .vFloat q => ratToPyString q
  | .vStr s => s

/-- Leading and trailing whitespace removal, as `float(str)` performs. -/
def stripChars (cs : List Char) : List Char :=
  ((cs.dropWhile Char.isWhitespace).reverse.dropWhile Char.isWhitespace).reverse

/-- Numeric value of a digit list (most significant first). -/
def digitsToNat (cs : List Char) : Nat :=
  cs.foldl (fun a c => 10 * a + (c.toNat - 48)) 0

/-- Split a character list into its leading run of digits and the rest. -/
def spanDigits (cs : List Char) : List Char × List Char :=
  (cs.takeWhile Char.isDigit, cs.dropWhile Char.isDigit)

/-- Parse the mantissa part of a Python float literal: `123`, `123.45`,
`123.` or `.45`; returns the value and the unconsumed remainder. -/
def parseMantissa (cs : List Char) : Option (ℚ × List Char) :=
  let ip := (spanDigits cs).1
  let r1 := (spanDigits cs).2
  match r1 with
  | '.' :: r2 =>
    let fp := (spanDigits r2).1
    let r3 := (spanDigits r2).2
    if ip.isEmpty && fp.isEmpty then none
    else some ((digitsToNat ip : ℚ) + (digitsToNat fp : ℚ) / ((10 : ℚ) ^ fp.length), r3)
  | _ => if ip.isEmpty then none else some ((digitsToNat ip : ℚ), r1)

/-- Parse an optional exponent suffix (`e±ddd`); returns the scale factor. -/
def parseExpPart : List Char → Option ℚ
  | [] => some 1
  | e :: r =>
    if e = 'e' ∨ e = 'E' then
      match r with
      | '+' :: t =>
        let ds := (spanDigits t).1
        if ds.isEmpty ∨ ¬ (spanDigits t).2.isEmpty then none
        else some ((10 : ℚ) ^ (digitsToNat ds))
      | '-' :: t =>
        let ds := (spanDigits t).1
        if ds.isEmpty ∨ ¬ (spanDigits t).2.isEmpty then none
        else some (((10 : ℚ) ^ (digitsToNat ds))⁻¹)
      | t =>
        let ds := (spanDigits t).1
        if ds.isEmpty ∨ ¬ (spanDigits t).2.isEmpty then none
        else some ((10 : ℚ) ^ (digitsToNat ds))
    else none

/-- Model of Python `float(s)` on a string: optional surrounding
whitespace, optional sign, decimal mantissa, optional exponent.
`none` models the `ValueError` Python raises on anything else
(e.g. `float("N/A")`). -/
def pyParseFloat (s : String) : Option ℚ :=
  let cs := stripChars s.toList
  let signAndRest : ℚ × List Char :=
    match cs with
    | '+' :: t => (1, t)
    | '-' :: t => (-1, t)
    | t => (1, t)
  match parseMantissa signAndRest.2 with
  | none => none
  | some mr =>
    match parseExpPart mr.2 with
    | none => none
    | some e => some (signAndRest.1 * mr.1 * e)

/-- A Python exception, as raised by the conversion primitives. -/
inductive PyExn where
  | valueError (msg : String)
  | typeError (msg : String)
  deriving DecidableEq

/-- Model of Python `float(val)`: succeeds on bools, ints, floats and
numeric strings; raises `TypeError` on `None` and `ValueError` on a
non-numeric string. -/
def pyFloat : Value → Except PyExn ℚ
  | .vNone => .error (.typeError "float() argument must be a string or a real number, not NoneType")
  | .vBool b => .ok (if b then 1 else 0)
  | .vInt n => .ok (n : ℚ)
  | .vFloat q => .ok q
  | .vStr s =>
    match pyParseFloat s with
    | some q => .ok q
    | none => .error (.valueError ("could not convert string to float: " ++ s))

/-- Truncation toward zero, the semantics of Python `int()` on a float. -/
def pyTrunc (q : ℚ) : Int :=
  Int.sign q.num * ((q.num.natAbs / q.den : Nat) : Int)

/-- Attribute maps: JSON objects of attribute name to value. -/
abbrev Attrs := List (String × Value)

/-- First value bound to `key`, `none` when the key is absent
(Python `attrs.get(key)` modulo the `None` default). -/
def lookupAttr : Attrs → String → Option Value
  | [], _ => none
  | (k, v) :: rest, key => if k = key then some v else lookupAttr rest key

/-- Python `attrs.get(key)`: the bound value, or `None` when absent. -/
def getAttr (a : Attrs) (key : String) : Value :=
  (lookupAttr a key).getD .vNone

/-- A Python `x1 or x2 or ... or xn` chain: the first truthy value, or the
last value when none is truthy. -/
def orChain : List Value → Value
  | [] => .vNone
  | [v] => v
  | v :: vs => if pyTruthy v then v else orChain vs

/-- The `geometry` member of an upstream feature (`{x: ..., y: ...}`). -/
structure Geometry where
  x : Option Value
  y : Option Value
  deriving DecidableEq

/-- One raw feature from the spatial service: an attribute map plus an
optional geometry.  A missing or null `attributes`/`geometry` member is
modelled by `[]` / `none`, matching `feature.get("attributes", {})` and
`feature.get("geometry", {}) or {}`. -/
structure Feature where
  attributes : Attrs
  geometry : Option Geometry
  deriving DecidableEq

/-- The canonical output record (`PropertyRecord` in `src/main.py`):
every field optional, numeric fields numeric-or-absent. -/
structure PropertyRecord where
  parcel_id : Option String := none
  address : Option String := none
  owner : Option String := none
  land_value : Option ℚ := none
  improvement_value : Option ℚ := none
  total_appraised_value : Option ℚ := none
  year_built : Option Int := none
  lot_size : Option ℚ := none
  legal_description : Option String := none
  property_class : Option String := none
  land_use : Option String := none
  longitude : Option ℚ := none
  latitude : Option ℚ := none
  deriving DecidableEq

/-- Body of `norm_float` before its exception handler: `None` maps to
`None`, otherwise `float(val)` (which may raise). -/
def norm_float_body (v : Value) : Except PyExn (Option ℚ) :=
  match v with
  | .vNone => .ok none
  | w =>
    match pyFloat w with
    | .ok q => .ok (some q)
    | .error e => .error e

/-- Body of `norm_int` before its exception handler: `None` maps to
`None`, otherwise `int(float(val))`. -/
def norm_int_body (v : Value) : Except PyExn (Option Int) :=
  match v with
  | .vNone => .ok none
  | w =>
    match pyFloat w with
    | .ok q => .ok (some (pyTrunc q))
    | .error e => .error e

/-- Python `try: return body except Exception: return h`, result view:
the handler value replaces any raised exception. -/
def pyTry {α : Type} (x : Except PyExn α) (h : α) : α :=
  match x with
  | .ok a => a
  | .error _ => h

/-- Same `try/except` viewed inside the exception monad: recovery, so the
wrapped computation can no longer propagate an exception. -/
def pyTryE {α : Type} (x : Except PyExn α) (h : α) : Except PyExn α :=
  match x with
  | .ok a => .ok a
  | .error _ => .ok h

/-- `DentonCADClient.norm_float`: best-effort float conversion, `none` on
`None` or any conversion failure. -/
def norm_float (v : Value) : Option ℚ := pyTry (norm_float_body v) none

/-- `DentonCADClient.norm_int`: best-effort int conversion through a float
intermediate, `none` on `None` or any conversion failure. -/
def norm_int (v : Value) : Option Int := pyTry (norm_int_body v) none

/-- Exception-monad view of `norm_float` (the `except` clause recovers). -/
def norm_floatE (v : Value) : Except PyExn (Option ℚ) := pyTryE (norm_float_body v) none

/-- Exception-monad view of `norm_int`. -/
def norm_intE (v : Value) : Except PyExn (Option Int) := pyTryE (norm_int_body v) none

/-- `str(x) if x is not None else None`, as used for string-typed outputs. -/
def strField (v : Value) : Option String :=
  match v with
  | .vNone => none
  | w => some (pyStr w)

/-- Alias chain for `parcel_id` in `normalize`. -/
def parcel_chain (a : Attrs) : Value :=
  orChain [getAttr a "PARCEL_ID", getAttr a "ParcelID", getAttr a "ACCOUNT",
           getAttr a "Account", getAttr a "OBJECTID"]

/-- Alias chain for `address`. -/
def address_chain (a : Attrs) : Value :=
  orChain [getAttr a "SITUS_ADDR", getAttr a "SitusAddress", getAttr a "SITUS",
           getAttr a "Address"]

/-- Alias chain for `owner`. -/
def owner_chain (a : Attrs) : Value :=
  orChain [getAttr a "OWNER", getAttr a "OwnerName", getAttr a "OWNER_NAME"]

/-- Alias chain for `land_value`. -/
def land_chain (a : Attrs) : Value :=
  orChain [getAttr a "LAND_VALUE", getAttr a "LandValue", getAttr a "LANDVAL"]

/-- Alias chain for `improvement_value`. -/
def impr_chain (a : Attrs) : Value :=
  orChain [getAttr a "IMPR_VALUE", getAttr a "ImprovementValue", getAttr a "IMPRVAL"]

/-- Alias chain for `total_appraised_value`. -/
def total_chain (a : Attrs) : Value :=
  orChain [getAttr a "TOTAL_VALUE", getAttr a "TotalValue", getAttr a "MKT_VAL",
           getAttr a "APPR_VALUE", getAttr a "ApprValue"]

/-- Alias chain for `year_built`. -/
def year_chain (a : Attrs) : Value :=
  orChain [getAttr a "YEAR_BUILT", getAttr a "YearBuilt"]

/-- Alias chain for `lot_size`. -/
def lot_chain (a : Attrs) : Value :=
  orChain [getAttr a "LOT_SIZE", getAttr a "LotSize", getAttr a "ACRES", getAttr a "Acres"]

/-- Alias chain for `legal_description`. -/
def legal_chain (a : Attrs) : Value :=
  orChain [getAttr a "LEGAL_DESC", getAttr a "LegalDesc", getAttr a "LEGAL_DESCRIPTION"]

/-- Alias chain for `property_class`. -/
def prop_class_chain (a : Attrs) : Value :=
  orChain [getAttr a "PROPERTY_CLASS", getAttr a "PropClass", getAttr a "PROP_CLASS"]

/-- Alias chain for `land_use`. -/
def land_use_chain (a : Attrs) : Value :=
  orChain [getAttr a "LAND_USE", getAttr a "LandUse"]

/-- The geometry coordinate read in `normalize`: `float(x)` when
`isinstance(x, (int, float))`, else `None`.  Python bools are instances
of `int`, so a boolean coordinate converts to `0.0`/`1.0`. -/
def geomNum (v : Option Value) : Option ℚ :=
  match v with
  | some (.vInt n) => some (n : ℚ)
  | some (.vFloat q) => some q
  | some (.vBool b) => some (if b then 1 else 0)
  | _ => none

/-- The `x` member of a feature's geometry, `none` when geometry absent. -/
def geomX (f : Feature) : Option Value :=
  match f.geometry with
  | none => none
  | some g => g.x

/-- The `y` member of a feature's geometry. -/
def geomY (f : Feature) : Option Value :=
  match f.geometry with
  | none => none
  | some g => g.y

/-- `DentonCADClient.normalize`: map one raw feature to the canonical
record via the alias chains and best-effort coercions. -/
def normalize (f : Feature) : PropertyRecord :=
  let a := f.attributes
  { parcel_id := strField (parcel_chain a)
    address := strField (address_chain a)
    owner := strField (owner_chain a)
    land_value := norm_float (land_chain a)
    improvement_value := norm_float (impr_chain a)
    total_appraised_value := norm_float (total_chain a)
    year_built := norm_int (year_chain a)
    lot_size := norm_float (lot_chain a)
    legal_description := strField (legal_chain a)
    property_class := strField (prop_class_chain a)
    land_use := strField (land_use_chain a)
    longitude := geomNum (geomX f)
    latitude := geomNum (geomY f) }

/-- `normalize` with every possibly-raising conversion threaded through
the exception monad: the only raising sites are the `float()` calls
inside `norm_float`/`norm_int`, each wrapped in its `try/except`. -/
def normalizeE (f : Feature) : Except PyExn PropertyRecord :=
  let a := f.attributes
  match norm_floatE (land_chain a) with
  | .error e => .error e
  | .ok lv =>
    match norm_floatE (impr_chain a) with
    | .error e => .error e
    | .ok iv =>
      match norm_floatE (total_chain a) with
      | .error e => .error e
      | .ok tv =>
        match norm_intE (year_chain a) with
        | .error e => .error e
        | .ok yb =>
          match norm_floatE (lot_chain a) with
          | .error e => .error e
          | .ok ls =>
            .ok { parcel_id := strField (parcel_chain a)
                  address := strField (address_chain a)
                  owner := strField (owner_chain a)
                  land_value := lv
                  improvement_value := iv
                  total_appraised_value := tv
                  year_built := yb
                  lot_size := ls
                  legal_description := strField (legal_chain a)
                  property_class := strField (prop_class_chain a)
                  land_use := strField (land_use_chain a)
                  longitude := geomNum (geomX f)
                  latitude := geomNum (geomY f) }

/-! ## Single-family classifier -/

instance {ε α : Type} [DecidableEq ε] [DecidableEq α] : DecidableEq (Except ε α) := fun x y =>
  match x, y with
  | .error a, .error b =>
    if h : a = b then isTrue (h ▸ rfl) else isFalse (fun hh => h (by cases hh; rfl))
  | .ok a, .ok b =>
    if h : a = b then isTrue (h ▸ rfl) else isFalse (fun hh => h (by cases hh; rfl))
  | .error _, .ok _ => isFalse (fun hh => Except.noConfusion hh)
  | .ok _, .error _ => isFalse (fun hh => Except.noConfusion hh)

/-- Uppercase a string (Python `.upper()` restricted to ASCII, which is
all the classifier text contains). -/
def strUpper (s : String) : String := ⟨s.data.map Char.toUpper⟩

/-- Python `sep.join(parts)`. -/
def joinWith (sep : String) : List String → String
  | [] => ""
  | [x] => x
  | x :: xs => x ++ sep ++ joinWith sep xs

/-- Is `small` a prefix of `big`? (character lists) -/
def listPre : List Char → List Char → Bool
  | [], _ => true
  | _ :: _, [] => false
  | a :: as, b :: bs => a == b && listPre as bs

/-- Does `needle` occur as a contiguous substring of the list? -/
def listSub (needle : List Char) : List Char → Bool
  | [] => needle.isEmpty
  | c :: cs => listPre needle (c :: cs) || listSub needle cs

/-- Python `needle in hay` on strings: contiguous substring containment. -/
def pyInStr (needle hay : String) : Bool := listSub needle.toList hay.toList

/-- The candidate attribute names probed by `is_single_family`. -/
def classifierKeys : List String :=
  ["LAND_USE", "LandUse", "PROPERTY_CLASS", "PropertyClass", "PROP_CLASS",
   "PropClass", "PROPERTY_TYPE"]

/-- The search text built by `is_single_family`: the string forms of the
candidate attributes (`str(attrs.get(k, ""))`), space-joined, uppercased. -/
def classifierText (a : Attrs) : String :=
  strUpper (joinWith " "
    (classifierKeys.map (fun k => pyStr ((lookupAttr a k).getD (.vStr "")))))

/-- `DentonCADClient.is_single_family`: heuristic substring test on the
combined land-use / property-class text. -/
def is_single_family (a : Attrs) : Bool :=
  pyInStr "SINGLE" (classifierText a) || pyInStr "SF" (classifierText a)

/-- Spec-side restatement of the classifier ("returns true iff the
uppercase space-joined concatenation of the candidate fields contains the
substring SINGLE or the substring SF"), written from the spec's words for
comparison against the code-derived `is_single_family`. -/
def single_family_spec (a : Attrs) : Prop :=
  pyInStr "SINGLE"
      (strUpper (joinWith " "
        (["LAND_USE", "LandUse", "PROPERTY_CLASS", "PropertyClass", "PROP_CLASS",
          "PropClass", "PROPERTY_TYPE"].map
            (fun k => pyStr ((lookupAttr a k).getD (.vStr "")))))) = true
  ∨ pyInStr "SF"
      (strUpper (joinWith " "
        (["LAND_USE", "LandUse", "PROPERTY_CLASS", "PropertyClass", "PROP_CLASS",
          "PropClass", "PROPERTY_TYPE"].map
            (fun k => pyStr ((lookupAttr a k).getD (.vStr "")))))) = true

/-! ## Error model and HTTP-facing orchestration -/

/-- A failure surfaced to the HTTP boundary: either an explicit
`HTTPException(status, detail)` raised by the code, or an unhandled
Python exception (which FastAPI turns into a 500). -/
inductive ApiError where
  | httpException (status : Nat) (detail : String)
  | pyError (e : PyExn)
  deriving DecidableEq

/-- The `AddressNotFound` failure: `HTTPException(404, "Address not found")`. -/
def addressNotFoundErr : ApiError := .httpException 404 "Address not found"

/-- The `NoResultsForExport` failure:
`HTTPException(404, "No properties found for the specified criteria")`. -/
def noResultsForExportErr : ApiError :=
  .httpException 404 "No properties found for the specified criteria"

/-- A geocoding result coordinate (`{"lat": ..., "lon": ...}`). -/
structure Coordinate where
  lat : ℚ
  lon : ℚ
  deriving DecidableEq

/-- One candidate row of the address lookup service's JSON response. -/
structure GeoCandidate where
  lat : Value
  lon : Value
  deriving DecidableEq

/-- The address lookup service's response: HTTP status, parsed candidate
array and raw text (used for error diagnostics). -/
structure GeoResponse where
  status : Nat
  body : List GeoCandidate
  rawText : String

/-- `geocode_address`: one lookup call (modelled by the `fetch` oracle);
non-200 status fails with a 502 carrying the truncated body, an empty
candidate list fails with `AddressNotFound`, otherwise the first
candidate's lat/lon are parsed as floats. -/
def geocode_address (fetch : String → GeoResponse) (address : String) :
    Except ApiError Coordinate :=
  let r := fetch address
  if r.status ≠ 200 then
    .error (.httpException 502 ("Geocoding failed: " ++ r.rawText.take 200))
  else
    match r.body with
    | [] => .error addressNotFoundErr
    | item :: _ =>
      match pyFloat item.lat with
      | .error e => .error (.pyError e)
      | .ok la =>
        match pyFloat item.lon with
        | .error e => .error (.pyError e)
        | .ok lo => .ok { lat := la, lon := lo }

/-- `DentonCADClient.miles_to_meters`. -/
def miles_to_meters (miles : ℚ) : ℚ := miles * 1609.34

/-- The query-string parameters `query_nearby` sends to the spatial
feature service (`where` is a Lean keyword, hence `whereClause`). -/
structure QueryParams where
  f : String
  whereClause : String
  geometry : String
  geometryType : String
  inSR : Nat
  spatialRel : String
  distance : ℚ
  units : String
  outFields : String
  outSR : Nat
  returnGeometry : Bool

/-- The parameter map built by `query_nearby` for a given point and
radius in miles. -/
def query_nearby_params (lon lat radius_miles : ℚ) : QueryParams :=
  { f := "json"
    whereClause := "1=1"
    geometry := ratToPyString lon ++ "," ++ ratToPyString lat
    geometryType := "esriGeometryPoint"
    inSR := 4326
    spatialRel := "esriSpatialRelIntersects"
    distance := miles_to_meters radius_miles
    units := "esriSRUnit_Meter"
    outFields := "*"
    outSR := 4326
    returnGeometry := true }

/-- The spatial feature service's response: HTTP status, the optional
`error` member of the JSON body, the optional `features` member, and the
raw text for diagnostics. -/
structure SpatialResponse where
  status : Nat
  errorField : Option String
  featuresField : Option (List Feature)
  rawText : String

/-- `DentonCADClient.query_nearby`: build the parameters, issue one call
(the `send` oracle), fail 502 on a non-200 status or an `error` payload,
otherwise return the `features` array (defaulting to empty). -/
def query_nearby (send : QueryParams → SpatialResponse) (lon lat radius_miles : ℚ) :
    Except ApiError (List Feature) :=
  let r := send (query_nearby_params lon lat radius_miles)
  if r.status ≠ 200 then
    .error (.httpException 502 ("Denton CAD query failed: " ++ r.rawText.take 200))
  else
    match r.errorField with
    | some e => .error (.httpException 502 ("Denton CAD error: " ++ e))
    | none => .ok (r.featuresField.getD [])

/-! ## Request model and validation -/

/-- A validated `SearchRequest`. -/
structure SearchRequest where
  address : String
  county : String
  radius_miles : ℚ
  single_family_only : Bool
  deriving DecidableEq

/-- An incoming request body before validation: each field present or
absent. -/
structure RawSearchRequest where
  address : Option String
  county : Option String
  radius_miles : Option ℚ
  single_family_only : Option Bool
  deriving DecidableEq

/-- A pydantic validation failure. -/
inductive ValidationError where
  | missingField (name : String)
  | constraintViolation (field : String)
  deriving DecidableEq

/-- Pydantic validation of `SearchRequest` as declared in the code:
`address` required (`Field(...)`, no length constraint), `county`
defaulting to "Denton County, TX", `radius_miles` defaulting to 2.0 and
constrained `gt=0`, `single_family_only` defaulting to `True`. -/
def validate_search_request (raw : RawSearchRequest) :
    Except ValidationError SearchRequest :=
  match raw.address with
  | none => .error (.missingField "address")
  | some a =>
    let county := raw.county.getD "Denton County, TX"
    let radius := raw.radius_miles.getD 2
    if radius > 0 then
      .ok { address := a, county := county, radius_miles := radius,
            single_family_only := raw.single_family_only.getD true }
    else
      .error (.constraintViolation "radius_miles")

/-- The disambiguated address the orchestrator geocodes:
`f"{req.address}, {req.county}"`. -/
def build_full_address (req : SearchRequest) : String :=
  req.address ++ ", " ++ req.county

/-- The normalization-and-filter tail of `search_properties`: normalize
every feature; when `single_family_only`, keep the records whose source
raw feature classifies single-family (zip preserves position). -/
def apply_filters (req : SearchRequest) (features : List Feature) :
    List PropertyRecord :=
  let records := features.map normalize
  if req.single_family_only then
    ((records.zip features).filter (fun p => is_single_family p.2.attributes)).map Prod.fst
  else
    records

/-- `search_properties`: geocode the disambiguated address, query the
spatial service around the coordinate with the requested radius in
miles, normalize, optionally filter.  Failures propagate unchanged. -/
def search_properties (fetch : String → GeoResponse)
    (send : QueryParams → SpatialResponse) (req : SearchRequest) :
    Except ApiError (List PropertyRecord) :=
  match geocode_address fetch (build_full_address req) with
  | .error e => .error e
  | .ok coords =>
    match query_nearby send coords.lon coords.lat req.radius_miles with
    | .error e => .error e
    | .ok features => .ok (apply_filters req features)

/-- One spreadsheet row, in the fixed preferred column order of
`to_excel`. -/
def record_row (r : PropertyRecord) : List (Option String) :=
  [r.parcel_id, r.address, r.owner,
   r.total_appraised_value.map ratToPyString,
   r.land_value.map ratToPyString,
   r.improvement_value.map ratToPyString,
   r.year_built.map toString,
   r.lot_size.map ratToPyString,
   r.legal_description, r.property_class, r.land_use,
   r.latitude.map ratToPyString,
   r.longitude.map ratToPyString]

/-- `to_excel`: serialize the records to spreadsheet rows. -/
def to_excel (records : List PropertyRecord) : List (List (Option String)) :=
  records.map record_row

/-- `export_properties`: reuse the search; an empty result set fails with
`NoResultsForExport`, otherwise produce the spreadsheet. -/
def export_properties (fetch : String → GeoResponse)
    (send : QueryParams → SpatialResponse) (req : SearchRequest) :
    Except ApiError (List (List (Option String))) :=
  match search_properties fetch send req with
  | .error e => .error e
  | .ok results =>
    match results with
    | [] => .error noResultsForExportErr
    | _ :: _ => .ok (to_excel results)

/-! ## Concrete fixtures used by the counterexamples and witnesses -/

/-- A feature carrying both `PARCEL_ID` (bound to the empty string, a
present, non-null value) and `ParcelID` (bound to `"A"`). -/
def c1_cex_feature : Feature :=
  { attributes := [("PARCEL_ID", .vStr ""), ("ParcelID", .vStr "A")], geometry := none }

/-- A feature whose `PARCEL_ID` holds a truthy value. -/
def c1_wit_feature : Feature :=
  { attributes := [("PARCEL_ID", .vStr "X"), ("ParcelID", .vStr "Y")], geometry := none }

/-- A feature whose five primary numeric aliases all hold `"N/A"`. -/
def c2_feature : Feature :=
  { attributes := [("LAND_VALUE", .vStr "N/A"), ("IMPR_VALUE", .vStr "N/A"),
                   ("TOTAL_VALUE", .vStr "N/A"), ("YEAR_BUILT", .vStr "N/A"),
                   ("LOT_SIZE", .vStr "N/A")],
    geometry := none }

/-- A feature with `LAND_VALUE` present and bound to the integer `0` and
no other land-value alias. -/
def c10_feature : Feature :=
  { attributes := [("LAND_VALUE", .vInt 0)], geometry := none }

/-- A geocoder oracle returning one candidate at `(33, -97)`. -/
def ee_fetch : String → GeoResponse :=
  fun _ => { status := 200, body := [{ lat := .vFloat 33, lon := .vFloat (-97) }], rawText := "" }

/-- End-to-end scenario feature 1: single-family. -/
def ee_f1 : Feature :=
  { attributes := [("LAND_USE", .vStr "SINGLE FAMILY")], geometry := none }

/-- End-to-end scenario feature 2: not single-family. -/
def ee_f2 : Feature :=
  { attributes := [("LAND_USE", .vStr "COMMERCIAL")], geometry := none }

/-- End-to-end scenario feature 3: single-family (class code `SF3`). -/
def ee_f3 : Feature :=
  { attributes := [("PROP_CLASS", .vStr "SF3")], geometry := none }

/-- A spatial oracle returning three features, two of them single-family. -/
def ee_send : QueryParams → SpatialResponse :=
  fun _ => { status := 200, errorField := none,
             featuresField := some [ee_f1, ee_f2, ee_f3], rawText := "" }

/-- The end-to-end scenario request. -/
def ee_req : SearchRequest :=
  { address := "123 Main St", county := "Denton County, TX",
    radius_miles := 2, single_family_only := true }

/-- A spatial oracle whose response carries an empty `features` list. -/
def c5_send : QueryParams → SpatialResponse :=
  fun _ => { status := 200, errorField := none, featuresField := some [], rawText := "" }

/-- A geocoder oracle returning a 200 status with an empty candidate
array. -/
def c6_fetch : String → GeoResponse :=
  fun _ => { status := 200, body := [], rawText := "" }

/-! ## Helper lemmas -/

theorem pyTryE_eq {α : Type} (x : Except PyExn α) (h : α) :
    pyTryE x h = .ok (pyTry x h) := by
  cases x <;> rfl

theorem norm_floatE_eq (v : Value) : norm_floatE v = .ok (norm_float v) := by
  unfold norm_floatE norm_float
  exact pyTryE_eq _ _

theorem norm_intE_eq (v : Value) : norm_intE v = .ok (norm_int v) := by
  unfold norm_intE norm_int
  exact pyTryE_eq _ _

theorem normalizeE_eq (f : Feature) : normalizeE f = .ok (normalize f) := by
  unfold normalizeE normalize
  simp only [norm_floatE_eq, norm_intE_eq]

theorem orChain_truthy (v : Value) (vs : List Value) (h : pyTruthy v = true) :
    orChain (v :: vs) = v := by
  cases vs with
  | nil => rfl
  | cons a t => simp [orChain, h]

theorem orChain_falsy (v : Value) (vs : List Value) (h : pyTruthy v = false)
    (hne : vs ≠ []) : orChain (v :: vs) = orChain vs := by
  cases vs with
  | nil => exact absurd rfl hne
  | cons a t => simp [orChain, h]

theorem norm_float_none_of (v : Value) (h : (pyFloat v).toOption = none) :
    norm_float v = none := by
  cases hf : pyFloat v with
  | ok q => rw [hf] at h; exact absurd h (by simp [Except.toOption])
  | error e =>
    cases v with
    | vNone => rfl
    | vBool b => simp [norm_float, pyTry, norm_float_body, hf]
    | vInt n => simp [norm_float, pyTry, norm_float_body, hf]
    | vFloat q => simp [norm_float, pyTry, norm_float_body, hf]
    | vStr s => simp [norm_float, pyTry, norm_float_body, hf]

theorem norm_int_none_of (v : Value) (h : (pyFloat v).toOption = none) :
    norm_int v = none := by
  cases hf : pyFloat v with
  | ok q => rw [hf] at h; exact absurd h (by simp [Except.toOption])
  | error e =>
    cases v with
    | vNone => rfl
    | vBool b => simp [norm_int, pyTry, norm_int_body, hf]
    | vInt n => simp [norm_int, pyTry, norm_int_body, hf]
    | vFloat q => simp [norm_int, pyTry, norm_int_body, hf]
    | vStr s => simp [norm_int, pyTry, norm_int_body, hf]

theorem zip_filter_eq (features : List Feature) :
    (((features.map normalize).zip features).filter
        (fun p => is_single_family p.2.attributes)).map Prod.fst
      = (features.filter (fun f => is_single_family f.attributes)).map normalize := by
  induction features with
  | nil => rfl
  | cons f t ih =>
    cases h : is_single_family f.attributes with
    | true => simp [List.zip_cons_cons, List.filter_cons, h, ih]
    | false => simp [List.zip_cons_cons, List.filter_cons, h, ih]

/-! ## Claim theorems -/

/-- C1 counterexample: the feature `{PARCEL_ID: "", ParcelID: "A"}` has
both aliases present, non-null and different, yet `normalize` yields
`parcel_id = "A"` — not the string form of the `PARCEL_ID` value — so
"first present, non-null alias wins" is false: a present, non-null but
falsy value falls through. -/
theorem normalize_first_alias_not_first_nonnull :
    (lookupAttr c1_cex_feature.attributes "PARCEL_ID" = some (Value.vStr "")
      ∧ lookupAttr c1_cex_feature.attributes "ParcelID" = some (Value.vStr "A")
      ∧ Value.vStr "" ≠ Value.vNone
      ∧ Value.vStr "" ≠ Value.vStr "A")
    ∧ (normalize c1_cex_feature).parcel_id = some "A"
    ∧ some "A" ≠ some (pyStr (Value.vStr "")) := by
  exact ⟨⟨rfl, rfl, by decide, by decide⟩, by decide, by decide⟩

/-- C1 (amended): the Normalizer selects the value of the first alias
in the priority list whose value is truthy (present, non-null and not
`0`/`0.0`/`""`/`False`); in particular, whenever `PARCEL_ID` holds a
truthy value the normalized `parcel_id` is its string form, regardless
of later aliases such as `ParcelID`. -/
theorem normalize_selects_first_truthy_alias (f : Feature) (v : Value)
    (h : lookupAttr f.attributes "PARCEL_ID" = some v)
    (ht : pyTruthy v = true) :
    (normalize f).parcel_id = some (pyStr v)
      ∧ ∀ (u : Value) (us : List Value), pyTruthy u = true → orChain (u :: us) = u := by
  constructor
  · have hchain : parcel_chain f.attributes = v := by
      unfold parcel_chain getAttr
      rw [h]
      exact orChain_truthy _ _ ht
    show strField (parcel_chain f.attributes) = some (pyStr v)
    rw [hchain]
    cases v with
    | vNone => simp [pyTruthy] at ht
    | vBool b => rfl
    | vInt n => rfl
    | vFloat q => rfl
    | vStr s => rfl
  · exact fun u us hu => orChain_truthy u us hu

/-- C1 witness: a feature with a truthy `PARCEL_ID` value `"X"` (and a
competing `ParcelID`) normalizes to `parcel_id = "X"`. -/
theorem normalize_selects_first_truthy_alias_witness :
    (normalize c1_wit_feature).parcel_id = some (pyStr (Value.vStr "X"))
      ∧ ∀ (u : Value) (us : List Value), pyTruthy u = true → orChain (u :: us) = u :=
  normalize_selects_first_truthy_alias c1_wit_feature (Value.vStr "X") (by decide) (by decide)

/-- C2: whenever the value selected for a numeric-mapped field (land
value, improvement value, total value, year built, lot size) cannot be
converted to the target numeric type, normalization yields `none` for
that field, and no exception reaches the caller (`normalizeE` succeeds). -/
theorem numeric_conversion_failure_yields_absence (f : Feature) :
    ((pyFloat (land_chain f.attributes)).toOption = none →
        (normalize f).land_value = none)
  ∧ ((pyFloat (impr_chain f.attributes)).toOption = none →
        (normalize f).improvement_value = none)
  ∧ ((pyFloat (total_chain f.attributes)).toOption = none →
        (normalize f).total_appraised_value = none)
  ∧ ((pyFloat (year_chain f.attributes)).toOption = none →
        (normalize f).year_built = none)
  ∧ ((pyFloat (lot_chain f.attributes)).toOption = none →
        (normalize f).lot_size = none)
  ∧ normalizeE f = .ok (normalize f) := by
  refine ⟨fun h => ?_, fun h => ?_, fun h => ?_, fun h => ?_, fun h => ?_, normalizeE_eq f⟩
  · exact norm_float_none_of _ h
  · exact norm_float_none_of _ h
  · exact norm_float_none_of _ h
  · exact norm_int_none_of _ h
  · exact norm_float_none_of _ h

/-- C2 witness: a feature whose five numeric aliases all hold `"N/A"`
normalizes every numeric field to `none` without raising. -/
theorem numeric_conversion_failure_yields_absence_witness :
    (normalize c2_feature).land_value = none
  ∧ (normalize c2_feature).improvement_value = none
  ∧ (normalize c2_feature).total_appraised_value = none
  ∧ (normalize c2_feature).year_built = none
  ∧ (normalize c2_feature).lot_size = none
  ∧ normalizeE c2_feature = .ok (normalize c2_feature) := by
  have h := numeric_conversion_failure_yields_absence c2_feature
  exact ⟨h.1 (by decide), h.2.1 (by decide), h.2.2.1 (by decide),
         h.2.2.2.1 (by decide), h.2.2.2.2.1 (by decide), h.2.2.2.2.2⟩

/-- C3: when the spatial query yields `features` and
`single_family_only` is true, the search result is exactly the
normalized records of the features whose raw attributes satisfy the
classifier, in the original relative order. -/
theorem search_filters_by_raw_feature_in_order (fetch : String → GeoResponse)
    (send : QueryParams → SpatialResponse) (req : SearchRequest)
    (c : Coordinate) (features : List Feature)
    (hgeo : geocode_address fetch (build_full_address req) = .ok c)
    (hq : query_nearby send c.lon c.lat req.radius_miles = .ok features)
    (hsf : req.single_family_only = true) :
    search_properties fetch send req
      = .ok ((features.filter (fun f => is_single_family f.attributes)).map normalize) := by
  simp only [search_properties, hgeo, hq, apply_filters, hsf, if_true]
  rw [zip_filter_eq]

/-- C3 witness: the end-to-end scenario — three features, two
single-family — returns exactly the two matching normalized records in
order. -/
theorem search_filters_by_raw_feature_in_order_witness :
    search_properties ee_fetch ee_send ee_req
      = .ok (([ee_f1, ee_f2, ee_f3].filter
          (fun f => is_single_family f.attributes)).map normalize) :=
  search_filters_by_raw_feature_in_order ee_fetch ee_send ee_req
    { lat := 33, lon := -97 } [ee_f1, ee_f2, ee_f3] (by decide) (by decide) rfl

/-- C4: the classifier returns true iff the uppercase space-joined
concatenation (empty string for missing) of the candidate land-use and
property-class fields contains the substring `SINGLE` or the substring
`SF`; `LAND_USE = "single family residential"` classifies true, and
`LAND_USE = "commercial"` alone classifies false. -/
theorem is_single_family_iff_substring (a : Attrs) :
    (is_single_family a = true ↔ single_family_spec a)
  ∧ is_single_family [("LAND_USE", Value.vStr "single family residential")] = true
  ∧ is_single_family [("LAND_USE", Value.vStr "commercial")] = false := by
  refine ⟨?_, by decide, by decide⟩
  unfold is_single_family single_family_spec classifierText classifierKeys
  exact iff_of_eq (Bool.or_eq_true _ _)

/-- C5: an empty feature list from the spatial query makes the search
succeed with an empty record list, while export of the same request
fails with `NoResultsForExport`. -/
theorem empty_features_search_ok_export_fails (fetch : String → GeoResponse)
    (send : QueryParams → SpatialResponse) (req : SearchRequest) (c : Coordinate)
    (hgeo : geocode_address fetch (build_full_address req) = .ok c)
    (hq : query_nearby send c.lon c.lat req.radius_miles = .ok []) :
    search_properties fetch send req = .ok []
      ∧ export_properties fetch send req = .error noResultsForExportErr := by
  have hs : search_properties fetch send req = .ok [] := by
    simp only [search_properties, hgeo, hq, apply_filters]
    cases req.single_family_only <;> simp
  refine ⟨hs, ?_⟩
  unfold export_properties
  rw [hs]

/-- C5 witness: with a spatial response carrying `features: []`, the
search returns `[]` and the export fails with `NoResultsForExport`. -/
theorem empty_features_search_ok_export_fails_witness :
    search_properties ee_fetch c5_send ee_req = .ok []
      ∧ export_properties ee_fetch c5_send ee_req = .error noResultsForExportErr :=
  empty_features_search_ok_export_fails ee_fetch c5_send ee_req
    { lat := 33, lon := -97 } (by decide) (by decide)

/-- C6: when the address lookup returns a 200 status with an empty
candidate list, geocoding fails with `AddressNotFound` and the search
fails with `AddressNotFound` for every possible spatial oracle — the
result never depends on the spatial query client, which is therefore
never invoked. -/
theorem empty_candidates_address_not_found_before_query
    (fetch : String → GeoResponse) (req : SearchRequest)
    (hstatus : (fetch (build_full_address req)).status = 200)
    (hempty : (fetch (build_full_address req)).body = []) :
    geocode_address fetch (build_full_address req) = .error addressNotFoundErr
      ∧ ∀ send : QueryParams → SpatialResponse,
          search_properties fetch send req = .error addressNotFoundErr := by
  have hg : geocode_address fetch (build_full_address req) = .error addressNotFoundErr := by
    simp [geocode_address, hstatus, hempty]
  refine ⟨hg, fun send => ?_⟩
  unfold search_properties
  rw [hg]

/-- C6 witness: a geocoder returning an empty candidate array makes the
search fail with `AddressNotFound` for every spatial oracle. -/
theorem empty_candidates_address_not_found_before_query_witness :
    geocode_address c6_fetch (build_full_address ee_req) = .error addressNotFoundErr
      ∧ ∀ send : QueryParams → SpatialResponse,
          search_properties c6_fetch send ee_req = .error addressNotFoundErr :=
  empty_candidates_address_not_found_before_query c6_fetch ee_req rfl rfl

/-- C7: `normalize` is pure and total — on every raw feature the
exception-threaded `normalizeE` returns `ok` with the record computed by
`normalize`; missing or malformed fields degrade to absent fields, never
to exceptions. -/
theorem normalize_is_total (f : Feature) : normalizeE f = .ok (normalize f) :=
  normalizeE_eq f

/-- C8 counterexample: a request carrying an empty address string passes
validation (pydantic declares `address: str` with no length constraint),
contradicting "a request carrying an empty address string is rejected at
validation". -/
theorem validate_accepts_empty_address :
    validate_search_request
        { address := some "", county := none, radius_miles := none,
          single_family_only := none }
      = .ok { address := "", county := "Denton County, TX", radius_miles := 2,
              single_family_only := true } := by
  decide

/-- C8 (amended): `address` is required (a request without it is
rejected) but an empty address string is accepted; `county` defaults to
"Denton County, TX", which is appended to the address; `radius_miles`
must be strictly positive with default 2.0; `single_family_only`
defaults to true. -/
theorem search_request_validation (a : String) (c : Option String)
    (s : Option Bool) (r : ℚ) (hr : r ≤ 0) :
    validate_search_request
        { address := none, county := c, radius_miles := some r,
          single_family_only := s }
      = .error (.missingField "address")
  ∧ validate_search_request
        { address := some a, county := c, radius_miles := some r,
          single_family_only := s }
      = .error (.constraintViolation "radius_miles")
  ∧ validate_search_request
        { address := some a, county := none, radius_miles := none,
          single_family_only := none }
      = .ok { address := a, county := "Denton County, TX", radius_miles := 2,
              single_family_only := true }
  ∧ ∀ req : SearchRequest, build_full_address req = req.address ++ ", " ++ req.county := by
  have hnr : ¬ (r > 0) := not_lt.mpr hr
  refine ⟨rfl, ?_, ?_, fun req => rfl⟩
  · simp [validate_search_request, hnr]
  · simp [validate_search_request]

/-- C8 witness: instantiation at `a = "x"`, `r = 0`. -/
theorem search_request_validation_witness :
    validate_search_request
        { address := none, county := none, radius_miles := some 0,
          single_family_only := none }
      = .error (.missingField "address")
  ∧ validate_search_request
        { address := some "x", county := none, radius_miles := some 0,
          single_family_only := none }
      = .error (.constraintViolation "radius_miles")
  ∧ validate_search_request
        { address := some "x", county := none, radius_miles := none,
          single_family_only := none }
      = .ok { address := "x", county := "Denton County, TX", radius_miles := 2,
              single_family_only := true }
  ∧ ∀ req : SearchRequest, build_full_address req = req.address ++ ", " ++ req.county :=
  search_request_validation "x" none none 0 (by norm_num)

/-- C9: the distance parameter sent to the spatial service equals
`radius_miles * 1609.34` with the unit set to meters (`r = 2` yields
`3218.68`), and the orchestrator hands the radius to `query_nearby` in
miles — the conversion happens inside the query client. -/
theorem radius_miles_to_meters_conversion (lon lat r : ℚ) (hr : 0 < r)
    (fetch : String → GeoResponse) (send : QueryParams → SpatialResponse)
    (req : SearchRequest) (c : Coordinate)
    (hgeo : geocode_address fetch (build_full_address req) = .ok c) :
    miles_to_meters r = r * 1609.34
  ∧ (query_nearby_params lon lat r).distance = r * 1609.34
  ∧ (query_nearby_params lon lat r).units = "esriSRUnit_Meter"
  ∧ (query_nearby_params lon lat 2).distance = 3218.68
  ∧ search_properties fetch send req
      = Except.map (apply_filters req) (query_nearby send c.lon c.lat req.radius_miles) := by
  refine ⟨rfl, rfl, rfl, by norm_num [query_nearby_params, miles_to_meters], ?_⟩
  simp only [search_properties, hgeo]
  cases hq : query_nearby send c.lon c.lat req.radius_miles with
  | error e => simp [Except.map]
  | ok fs => simp [Except.map]

/-- C9 witness: instantiation at `r = 2` with the end-to-end oracles. -/
theorem radius_miles_to_meters_conversion_witness :
    miles_to_meters 2 = 2 * 1609.34
  ∧ (query_nearby_params 0 0 2).distance = 2 * 1609.34
  ∧ (query_nearby_params 0 0 2).units = "esriSRUnit_Meter"
  ∧ (query_nearby_params 0 0 2).distance = 3218.68
  ∧ search_properties ee_fetch ee_send ee_req
      = Except.map (apply_filters ee_req) (query_nearby ee_send (-97) 33 2) :=
  radius_miles_to_meters_conversion 0 0 2 (by norm_num) ee_fetch ee_send ee_req
    { lat := 33, lon := -97 } (by decide)

/-- C10: a present-but-falsy alias value is treated as missing: an
`or`-chain skips a falsy head whenever later aliases remain, and a
feature with `LAND_VALUE` bound to a falsy value (such as `0`) and no
other land-value alias normalizes to `land_value = none`, not `0.0`. -/
theorem falsy_alias_falls_through (f : Feature) (v : Value)
    (hp : lookupAttr f.attributes "LAND_VALUE" = some v)
    (hf : pyTruthy v = false)
    (h2 : lookupAttr f.attributes "LandValue" = none)
    (h3 : lookupAttr f.attributes "LANDVAL" = none) :
    (normalize f).land_value = none
      ∧ ∀ (u : Value) (us : List Value), pyTruthy u = false → us ≠ [] →
          orChain (u :: us) = orChain us := by
  constructor
  · have hchain : land_chain f.attributes = Value.vNone := by
      unfold land_chain getAttr
      rw [hp, h2, h3]
      simp [orChain, hf]
    show norm_float (land_chain f.attributes) = none
    rw [hchain]
    rfl
  · exact fun u us hu hne => orChain_falsy u us hu hne

/-- C10 witness: `{LAND_VALUE: 0}` normalizes to `land_value = none`. -/
theorem falsy_alias_falls_through_witness :
    (normalize c10_feature).land_value = none
      ∧ ∀ (u : Value) (us : List Value), pyTruthy u = false → us ≠ [] →
          orChain (u :: us) = orChain us :=
  falsy_alias_falls_through c10_feature (Value.vInt 0)
    (by decide) (by decide) (by decide) (by decide)

end DentonCAD
